import Mathlib

/-!
Shallow embedding of `src/skulpin-renderer/src/skia_support.rs` (skulpin):
the Vulkan/Skia bridging layer consisting of `VkSkiaContext` (shared-context
builder with a hooked function-pointer resolver) and `VkSkiaSurface`
(bridged-surface builder registering a foreign Vulkan image with the rafx
resource manager).

Native handles are modelled as `Nat`; fallible external calls are modelled as
`Option`-valued environment fields; Rust panics (`unwrap`) are a distinct
`Outcome.panic` constructor so they are never confused with the structured
`RafxResult` error channel.
-/

namespace Skulpin

/-- Outcome of a Rust call site: a normal value, a structured `Result` error
propagated with `?`, or a panic (`unwrap` on `None`/`Err`). -/
inductive Outcome (ε α : Type) where
  | ok : α → Outcome ε α
  | err : ε → Outcome ε α
  | panic : String → Outcome ε α
deriving DecidableEq

def Outcome.isOk {ε α : Type} : Outcome ε α → Bool
  | .ok _ => true
  | _ => false

def Outcome.isErr {ε α : Type} : Outcome ε α → Bool
  | .err _ => true
  | _ => false

def Outcome.isPanic {ε α : Type} : Outcome ε α → Bool
  | .panic _ => true
  | _ => false

/-- Structured error type standing for `RafxError` in `RafxResult<T>`. -/
abbrev RafxError := String

/-- `ash::vk::Result` — only the success code is produced by this module. -/
inductive VkResult where
  | SUCCESS
  | ERROR_UNKNOWN
deriving DecidableEq

/-- `vk::make_version(major, minor, patch)`: `(major << 22) | (minor << 12) | patch`. -/
def vkMakeVersion (major minor patch : Nat) : Nat :=
  (major <<< 22) ||| (minor <<< 12) ||| patch

/-- `VkSkiaContext::enumerate_instance_version_hooked`: given the current
contents of the `u32` pointed to by `p_api_version`, return the new contents
and the result code.  The hook unconditionally stores
`vk::make_version(1, 0, 0)` and returns `SUCCESS`. -/
def enumerate_instance_version_hooked (_p_api_version : Nat) : Nat × VkResult :=
  (vkMakeVersion 1 0 0, VkResult.SUCCESS)

/-- `skia_safe::gpu::vk::GetProcOf`: an instance-level or device-level
function-pointer query, carrying the raw instance/device handle and the
entry-point name. -/
inductive GetProcOf where
  | Instance (instance_proc : Nat) (name : String)
  | Device (device_proc : Nat) (name : String)
deriving DecidableEq

def GetProcOf.nameOf : GetProcOf → String
  | .Instance _ n => n
  | .Device _ n => n

def GetProcOf.isDeviceQuery : GetProcOf → Bool
  | .Instance _ _ => false
  | .Device _ _ => true

/-- A resolved native function pointer: either the locally-defined hook
`enumerate_instance_version_hooked`, or a pointer produced by the real
native loader (address modelled as `Nat`). -/
inductive ProcPtr where
  | hookedEnumerateInstanceVersion
  | native (addr : Nat)
deriving DecidableEq

/-- `VkSkiaContext::get_proc`.  `gipa` stands for
`entry.get_instance_proc_addr` and `gdpa` for
`instance.get_device_proc_addr`, each taking a raw handle and a name.
Instance-level queries for `"vkEnumerateInstanceVersion"` are intercepted and
answered with the local hook; everything else is delegated to the real
loader. -/
def get_proc (gipa : Nat → String → Option Nat) (gdpa : Nat → String → Option Nat) :
    GetProcOf → Option ProcPtr
  | .Instance instance_proc name =>
    if name = "vkEnumerateInstanceVersion" then
      some ProcPtr.hookedEnumerateInstanceVersion
    else
      (gipa instance_proc name).map ProcPtr.native
  | .Device device_proc name =>
    (gdpa device_proc name).map ProcPtr.native

/-- The real underlying native loader queried directly, with no
interception: instance queries go to `get_instance_proc_addr`, device queries
to `get_device_proc_addr`. -/
def real_resolver (gipa : Nat → String → Option Nat) (gdpa : Nat → String → Option Nat) :
    GetProcOf → Option Nat
  | .Instance instance_proc name => gipa instance_proc name
  | .Device device_proc name => gdpa device_proc name

/-! ## Format mapping (`VkSkiaSurface::new`, the `match color_type` block) -/

/-- `skia_safe::ColorType` (the variants of the Skia color-type enumeration). -/
inductive ColorType where
  | Unknown
  | Alpha8
  | RGB565
  | ARGB4444
  | RGBA8888
  | RGB888x
  | BGRA8888
  | RGBA1010102
  | BGRA1010102
  | RGB101010x
  | Gray8
  | RGBAF16Norm
  | RGBAF16
  | RGBAF32
deriving DecidableEq

/-- The two `RafxFormat` values this module produces. -/
inductive RafxFormat where
  | R8G8B8A8_UNORM
  | B8G8R8A8_UNORM
deriving DecidableEq

def unexpectedColorTypeWarning : String := "Unexpected native color type"

/-- The `match color_type` block in `VkSkiaSurface::new`: maps Skia's native
color type to the rafx format, together with the list of log messages the
branch emits (`warn!` only in the fallback arm). -/
def formatFromColorType (color_type : ColorType) : RafxFormat × List String :=
  match color_type with
  | .RGBA8888 => (RafxFormat.R8G8B8A8_UNORM, [])
  | .BGRA8888 => (RafxFormat.B8G8R8A8_UNORM, [])
  | _ => (RafxFormat.R8G8B8A8_UNORM, [unexpectedColorTypeWarning])

/-! ## Shared-context builder (`VkSkiaContext::new`) -/

/-- The raw handles a `RafxDeviceContextVulkanInner` yields:
`instance.handle()`, `physical_device`, `device.handle()`, and
`queue_family_indices().graphics_queue_family_index`. -/
structure VkDeviceContextRaw where
  instanceHandle : Nat
  physicalDeviceHandle : Nat
  deviceHandle : Nat
  graphicsQueueFamilyIndex : Nat
deriving DecidableEq

/-- The rafx Vulkan queue object: its native `vk::Queue` handle lives behind a
mutex (`queue.vk_queue().unwrap().queue().queue().lock()`). -/
structure VkQueueInner where
  queueHandle : Nat
deriving DecidableEq

/-- `skia_safe::gpu::vk::BackendContext::new` argument bundle: four raw native
handles plus the `(queue, queue_family_index)` pair.  The `get_proc` resolver
closure is passed alongside and modelled separately by `get_proc`. -/
structure BackendContext where
  instanceHandle : Nat
  physicalDeviceHandle : Nat
  deviceHandle : Nat
  queueHandle : Nat
  queueFamilyIndex : Nat
deriving DecidableEq

/-- Opaque handle to the Skia GPU context produced by
`skia_safe::gpu::Context::new_vulkan`. -/
structure SkiaGpuContext where
  id : Nat
deriving DecidableEq

/-- The `VkSkiaContext` struct: owns the Skia GPU context. -/
structure VkSkiaContextM where
  context : SkiaGpuContext
deriving DecidableEq

/-- Environment of external calls made by `VkSkiaContext::new`:
`device_context.vk_device_context()` (fails when the wrong backend is
compiled in), `queue.vk_queue()` (same), and
`skia_safe::gpu::Context::new_vulkan` (the 2D library's GPU-context
constructor, which may fail). -/
structure ContextEnv where
  vkDeviceContext : Option VkDeviceContextRaw
  vkQueue : Option VkQueueInner
  newVulkan : BackendContext → Option SkiaGpuContext

/-- Events on the mutex guarding the queue's native handle, in program
order. -/
inductive LockEvent where
  | acquire
  | readHandle (value : Nat)
  | release
deriving DecidableEq

/-- Net number of lock acquisitions still outstanding after a trace. -/
def locksHeldAfter (trace : List LockEvent) : Int :=
  trace.foldl
    (fun n e =>
      match e with
      | LockEvent.acquire => n + 1
      | LockEvent.release => n - 1
      | LockEvent.readHandle _ => n)
    0

/-- The backend context built from the extracted raw handles, exactly as the
argument list of `BackendContext::new` in `VkSkiaContext::new`. -/
def backendContextFor (d : VkDeviceContextRaw) (q : VkQueueInner) : BackendContext :=
  { instanceHandle := d.instanceHandle
    physicalDeviceHandle := d.physicalDeviceHandle
    deviceHandle := d.deviceHandle
    queueHandle := q.queueHandle
    queueFamilyIndex := d.graphicsQueueFamilyIndex }

/-- `VkSkiaContext::new`.  Returns the outcome (`ok` context, or `panic` from
one of the three `unwrap` sites — there is no `Result` channel) together with
the trace of operations on the queue-handle mutex.  The statement
`let vk_queue_handle = *queue.vk_queue().unwrap().queue().queue().lock().unwrap();`
acquires the lock, copies the numeric handle out, and drops the guard at the
end of the statement, which is the `[acquire, readHandle v, release]`
trace. -/
def vkSkiaContextNew (env : ContextEnv) :
    Outcome RafxError VkSkiaContextM × List LockEvent :=
  match env.vkDeviceContext with
  | none => (Outcome.panic "vk_device_context().unwrap() on None", [])
  | some vk_device_context =>
    match env.vkQueue with
    | none => (Outcome.panic "vk_queue().unwrap() on None", [])
    | some q =>
      let vk_queue_handle := q.queueHandle
      let lock_trace := [LockEvent.acquire, LockEvent.readHandle vk_queue_handle,
        LockEvent.release]
      let backend_context := backendContextFor vk_device_context q
      match env.newVulkan backend_context with
      | none => (Outcome.panic "Context::new_vulkan(..).unwrap() on None", lock_trace)
      | some context => (Outcome.ok { context := context }, lock_trace)

/-! ## Bridged-surface builder (`VkSkiaSurface::new`) -/

/-- `RafxExtents2D`: unsigned 32-bit width/height (values are below `2^32`). -/
structure RafxExtents2D where
  width : Nat
  height : Nat
deriving DecidableEq

/-- `RafxExtents3D`. -/
structure RafxExtents3D where
  width : Nat
  height : Nat
  depth : Nat
deriving DecidableEq

/-- The `as i32` cast of a `u32` value: two's-complement reinterpretation. -/
def i32ofU32 (n : Nat) : Int :=
  if n < 2 ^ 31 then (n : Int) else (n : Int) - 2 ^ 32

/-- `skia_safe::AlphaType` (only `Premul` is requested by this module). -/
inductive AlphaType where
  | Premul
  | Unpremul
deriving DecidableEq

/-- `skia_safe::ImageInfo::new((width as i32, height as i32), color_type,
alpha_type, color_space)` with a linear-sRGB color space. -/
structure ImageInfo where
  width : Int
  height : Int
  colorType : ColorType
  alphaType : AlphaType
  srgbLinearColorSpace : Bool
deriving DecidableEq

/-- The image info `VkSkiaSurface::new` passes to Skia: dimensions go through
the `u32 → i32` cast. -/
def imageInfoFor (color_type : ColorType) (extents : RafxExtents2D) : ImageInfo :=
  { width := i32ofU32 extents.width
    height := i32ofU32 extents.height
    colorType := color_type
    alphaType := AlphaType.Premul
    srgbLinearColorSpace := true }

/-- `texture.vulkan_image_info()`: carries the raw `vk::Image` handle. -/
structure VkImageInfo where
  image : Nat
deriving DecidableEq

/-- `skia_safe::gpu::BackendTexture`; `vulkan_image_info()` is `None` when the
texture is not Vulkan-backed. -/
structure BackendTexture where
  vulkanImageInfo : Option VkImageInfo
deriving DecidableEq

/-- `skia_safe::Surface`; `get_backend_texture(FlushRead)` may return
`None`. -/
structure SkiaSurface where
  backendTexture : Option BackendTexture
deriving DecidableEq

/-- `VkSkiaSurface::get_image_from_skia_texture`: extract the raw `vk::Image`
from the backend texture (`transmute` of the handle is the identity on the
numeric value).  `None` models the `unwrap` panic case of a missing
`vulkan_image_info`. -/
def get_image_from_skia_texture (texture : BackendTexture) : Option Nat :=
  texture.vulkanImageInfo.map (fun info => info.image)

/-- `RafxRawImageVulkan { allocation: None, image }`: the native image record;
`allocation = none` is the foreign/non-owned marker. -/
structure RafxRawImageVulkan where
  allocation : Option Nat
  image : Nat
deriving DecidableEq

/-- `RafxResourceType::TEXTURE` (only variant used here). -/
inductive RafxResourceType where
  | TEXTURE
deriving DecidableEq

/-- `RafxSampleCount::SampleCount1` (only variant used here). -/
inductive RafxSampleCount where
  | SampleCount1
deriving DecidableEq

/-- The `RafxTextureDef` registered for the adopted image. -/
structure RafxTextureDef where
  extents : RafxExtents3D
  format : RafxFormat
  resourceType : RafxResourceType
  sampleCount : RafxSampleCount
deriving DecidableEq

/-- The texture definition `VkSkiaSurface::new` builds: original unsigned
extents with depth 1, single-sample, texture usage. -/
def textureDefFor (extents : RafxExtents2D) (format : RafxFormat) : RafxTextureDef :=
  { extents := { width := extents.width, height := extents.height, depth := 1 }
    format := format
    resourceType := RafxResourceType.TEXTURE
    sampleCount := RafxSampleCount.SampleCount1 }

/-- `RafxTextureVulkan` produced by `from_existing`: wraps the raw image
record and the texture definition. -/
structure RafxTextureVulkan where
  rawImage : RafxRawImageVulkan
  textureDef : RafxTextureDef
deriving DecidableEq

/-- `RafxTexture::Vk`. -/
inductive RafxTexture where
  | Vk (t : RafxTextureVulkan)
deriving DecidableEq

/-- `ResourceArc<ImageViewResource>`: a view over a registered texture. -/
structure ImageViewResource where
  texture : RafxTexture
deriving DecidableEq

/-- The resource manager: its device context (as an id) and the table of
registered images. -/
structure ResourceManager where
  deviceContextId : Nat
  images : List RafxTexture
deriving DecidableEq

/-- `resource_manager.resources().insert_image`: registers the texture and
returns the owning handle (modelled as the texture itself). -/
def insert_image (rm : ResourceManager) (texture : RafxTexture) :
    ResourceManager × RafxTexture :=
  ({ rm with images := rm.images ++ [texture] }, texture)

/-- The `VkSkiaSurface` struct returned on success. -/
structure VkSkiaSurfaceM where
  deviceContextId : Nat
  image_view : ImageViewResource
  surface : SkiaSurface
  texture : BackendTexture
deriving DecidableEq

/-- Environment of external calls made by `VkSkiaSurface::new`:
`ColorType::n32()` (platform-native color type resolved by Skia),
`Surface::new_render_target` (GPU-resident surface allocation, `None` on
failure), and injected structured errors from
`RafxTextureVulkan::from_existing` (backend mismatch) and
`get_or_create_image_view`, both propagated with `?`. -/
structure SurfEnv where
  nativeColorType : ColorType
  newRenderTarget : ImageInfo → Option SkiaSurface
  fromExistingErr : Option RafxError
  getOrCreateErr : Option RafxError

/-- `VkSkiaSurface::new`.  Returns the resource-manager state after the call
together with the outcome: `ok` surface, `err` for a `RafxResult` error
propagated by `?`, or `panic` for the `unwrap` sites (surface allocation,
backend-texture retrieval, Vulkan image-info extraction). -/
def vkSkiaSurfaceNew (env : SurfEnv) (resource_manager : ResourceManager)
    (extents : RafxExtents2D) :
    ResourceManager × Outcome RafxError VkSkiaSurfaceM :=
  let color_type := env.nativeColorType
  let image_info := imageInfoFor color_type extents
  match env.newRenderTarget image_info with
  | none => (resource_manager, Outcome.panic "Surface::new_render_target(..).unwrap() on None")
  | some surface =>
    match surface.backendTexture with
    | none => (resource_manager, Outcome.panic "get_backend_texture(..).as_ref().unwrap() on None")
    | some texture =>
      match get_image_from_skia_texture texture with
      | none => (resource_manager, Outcome.panic "vulkan_image_info().unwrap() on None")
      | some image =>
        let format := (formatFromColorType color_type).1
        let raw_image : RafxRawImageVulkan := { allocation := none, image := image }
        match env.fromExistingErr with
        | some e => (resource_manager, Outcome.err e)
        | none =>
          let tex : RafxTextureVulkan :=
            { rawImage := raw_image, textureDef := textureDefFor extents format }
          let (rm2, handle) := insert_image resource_manager (RafxTexture.Vk tex)
          match env.getOrCreateErr with
          | some e => (rm2, Outcome.err e)
          | none =>
            let image_view : ImageViewResource := { texture := handle }
            (rm2, Outcome.ok
              { deviceContextId := resource_manager.deviceContextId
                image_view := image_view
                surface := surface
                texture := texture })

/-- The raw `vk::Image` wrapped inside the texture underlying an image
view. -/
def imageOfView (v : ImageViewResource) : Nat :=
  match v.texture with
  | RafxTexture.Vk t => t.rawImage.image

/-- The Vulkan texture record underlying an image view. -/
def vkTextureOfView (v : ImageViewResource) : RafxTextureVulkan :=
  match v.texture with
  | RafxTexture.Vk t => t

/-- Modelled from the spec: the framework's release path (which lives in the
rafx crate, outside this repository) calls the native free for an image's
memory only when the image record carries an allocation handle; a foreign
record with `allocation = None` is never freed by the framework. -/
def releaseFreesMemory (t : RafxTextureVulkan) : Bool :=
  t.rawImage.allocation.isSome

/-! ## Shared shape lemma for successful builds -/

/-- Any successful run of `VkSkiaSurface::new` went through the allocation,
backend-texture and image-extraction steps, and the returned struct is exactly
the one assembled from those intermediate values. -/
theorem vkSkiaSurfaceNew_ok_shape (env : SurfEnv) (rm : ResourceManager)
    (extents : RafxExtents2D) (s : VkSkiaSurfaceM)
    (h : (vkSkiaSurfaceNew env rm extents).2 = Outcome.ok s) :
    ∃ surface texture image,
      env.newRenderTarget (imageInfoFor env.nativeColorType extents) = some surface ∧
      surface.backendTexture = some texture ∧
      get_image_from_skia_texture texture = some image ∧
      s = { deviceContextId := rm.deviceContextId,
            image_view := ⟨RafxTexture.Vk ⟨⟨none, image⟩,
              textureDefFor extents (formatFromColorType env.nativeColorType).1⟩⟩,
            surface := surface,
            texture := texture } := by
  rcases hnr : env.newRenderTarget (imageInfoFor env.nativeColorType extents) with _ | surface
  · simp [vkSkiaSurfaceNew, hnr] at h
  · rcases hbt : surface.backendTexture with _ | texture
    · simp [vkSkiaSurfaceNew, hnr, hbt] at h
    · rcases hio : get_image_from_skia_texture texture with _ | image
      · simp [vkSkiaSurfaceNew, hnr, hbt, hio] at h
      · rcases hfe : env.fromExistingErr with _ | e
        · rcases hgc : env.getOrCreateErr with _ | e
          · refine ⟨surface, texture, image, rfl, hbt, hio, ?_⟩
            simp [vkSkiaSurfaceNew, hnr, hbt, hio, hfe, hgc, insert_image] at h
            exact h.symm
          · simp [vkSkiaSurfaceNew, hnr, hbt, hio, hfe, hgc, insert_image] at h
        · simp [vkSkiaSurfaceNew, hnr, hbt, hio, hfe] at h

/-! ## Arithmetic helpers for the u32/i32 cast -/

theorem i32ofU32_eq_self_iff (n : Nat) (h : n < 2 ^ 32) :
    i32ofU32 n = (n : Int) ↔ n < 2 ^ 31 := by
  simp only [i32ofU32]
  split <;> omega

theorem i32ofU32_neg_of_ge (n : Nat) (h31 : 2 ^ 31 ≤ n) (h : n < 2 ^ 32) :
    i32ofU32 n < 0 := by
  simp only [i32ofU32]
  split <;> omega

/-! ## Claim theorems -/

/-- C1: for every successful call to `VkSkiaSurface::new` with positive
extents, the native Vulkan image handle backing the returned Skia surface —
extracted via `get_image_from_skia_texture` from the retained backend
texture — is the identical native object wrapped inside the texture
underlying the returned `image_view` resource handle. -/
theorem c1_image_identity (env : SurfEnv) (rm : ResourceManager)
    (extents : RafxExtents2D) (s : VkSkiaSurfaceM)
    (_hw : 0 < extents.width) (_hh : 0 < extents.height)
    (h : (vkSkiaSurfaceNew env rm extents).2 = Outcome.ok s) :
    get_image_from_skia_texture s.texture = some (imageOfView s.image_view) := by
  obtain ⟨surface, texture, image, hnr, hbt, hio, hs⟩ :=
    vkSkiaSurfaceNew_ok_shape env rm extents s h
  subst hs
  simpa [imageOfView] using hio

/-- C2: for the intercepted entry-point name `"vkEnumerateInstanceVersion"`,
the resolver returns the local hook, and the hook — invoked on any prior
contents of the version variable and for any real underlying loader — writes
exactly `vk::make_version(1, 0, 0)` (the fixed down-leveled version,
numerically `4194304`) and returns the success code. -/
theorem c2_version_override (gipa gdpa : Nat → String → Option Nat) (ip v : Nat) :
    get_proc gipa gdpa (GetProcOf.Instance ip "vkEnumerateInstanceVersion") =
      some ProcPtr.hookedEnumerateInstanceVersion ∧
    enumerate_instance_version_hooked v = (vkMakeVersion 1 0 0, VkResult.SUCCESS) ∧
    vkMakeVersion 1 0 0 = 4194304 := by
  refine ⟨?_, rfl, by decide⟩
  simp [get_proc]

/-- C3: for every entry-point query that is not an instance-level query for
`"vkEnumerateInstanceVersion"` — in particular for every device-level
query — the resolver's result is observationally identical to querying the
real underlying native loader directly (instance-level queries delegate to
`get_instance_proc_addr`, device-level queries to `get_device_proc_addr`,
unmodified). -/
theorem c3_resolver_passthrough (gipa gdpa : Nat → String → Option Nat)
    (of : GetProcOf)
    (h : of.nameOf ≠ "vkEnumerateInstanceVersion" ∨ of.isDeviceQuery = true) :
    get_proc gipa gdpa of = (real_resolver gipa gdpa of).map ProcPtr.native := by
  cases of with
  | Instance ip name =>
    rcases h with h | h
    · simp only [GetProcOf.nameOf] at h
      simp [get_proc, real_resolver, h]
    · simp [GetProcOf.isDeviceQuery] at h
  | Device dp name => rfl

/-- C4: the format mapping is a pure total function: `RGBA8888` maps to
`R8G8B8A8_UNORM` with no log, `BGRA8888` maps to `B8G8R8A8_UNORM` with no
log, and every other color type maps to `R8G8B8A8_UNORM` while emitting
exactly the one warning message. -/
theorem c4_format_mapping :
    formatFromColorType ColorType.RGBA8888 = (RafxFormat.R8G8B8A8_UNORM, []) ∧
    formatFromColorType ColorType.BGRA8888 = (RafxFormat.B8G8R8A8_UNORM, []) ∧
    ∀ c : ColorType, c ≠ ColorType.RGBA8888 → c ≠ ColorType.BGRA8888 →
      formatFromColorType c = (RafxFormat.R8G8B8A8_UNORM, [unexpectedColorTypeWarning]) := by
  refine ⟨rfl, rfl, ?_⟩
  intro c h1 h2
  cases c <;> first | rfl | exact absurd rfl h1 | exact absurd rfl h2

/-- C5 (amended): when the 2D library's GPU-resident surface allocation
fails, `VkSkiaSurface::new` fails fatally by panicking (the code `unwrap`s the
`Option` returned by `Surface::new_render_target`); the failure is not
surfaced through the `RafxResult` error channel, and the resource manager is
left untouched. -/
theorem c5_alloc_failure_panics (env : SurfEnv) (rm : ResourceManager)
    (extents : RafxExtents2D)
    (h : env.newRenderTarget (imageInfoFor env.nativeColorType extents) = none) :
    vkSkiaSurfaceNew env rm extents =
      (rm, Outcome.panic "Surface::new_render_target(..).unwrap() on None") := by
  simp [vkSkiaSurfaceNew, h]

/-- C6: `VkSkiaContext::new` either returns a fully usable shared context or
panics — it never uses a structured error channel, it succeeds exactly when
the device context yields raw handles, the queue yields its Vulkan handle,
and the 2D library's GPU-context creation succeeds, and on success the
returned struct carries exactly the Skia GPU context produced from the
extracted handles (never a partially-initialized one). -/
theorem c6_context_total (env : ContextEnv) :
    (vkSkiaContextNew env).1.isErr = false ∧
    ((vkSkiaContextNew env).1.isOk = true ↔
      ∃ d q c, env.vkDeviceContext = some d ∧ env.vkQueue = some q ∧
        env.newVulkan (backendContextFor d q) = some c) ∧
    (∀ ctx : VkSkiaContextM, (vkSkiaContextNew env).1 = Outcome.ok ctx →
      ∃ d q, env.vkDeviceContext = some d ∧ env.vkQueue = some q ∧
        env.newVulkan (backendContextFor d q) = some ctx.context) := by
  rcases hd : env.vkDeviceContext with _ | d
  · simp [vkSkiaContextNew, hd, Outcome.isErr, Outcome.isOk]
  · rcases hq : env.vkQueue with _ | q
    · simp [vkSkiaContextNew, hd, hq, Outcome.isErr, Outcome.isOk]
    · rcases hn : env.newVulkan (backendContextFor d q) with _ | c <;>
        simp [vkSkiaContextNew, hd, hq, hn, Outcome.isErr, Outcome.isOk]

/-- C7: in every successful build, the raw native image record adopted into
the framework texture carries no allocation handle (`allocation = None`, the
foreign/non-owned marker), so the framework's release path — which frees
only allocation-carrying records — never frees the underlying image
memory. -/
theorem c7_foreign_no_free (env : SurfEnv) (rm : ResourceManager)
    (extents : RafxExtents2D) (s : VkSkiaSurfaceM)
    (h : (vkSkiaSurfaceNew env rm extents).2 = Outcome.ok s) :
    (vkTextureOfView s.image_view).rawImage.allocation = none ∧
    releaseFreesMemory (vkTextureOfView s.image_view) = false := by
  obtain ⟨surface, texture, image, hnr, hbt, hio, hs⟩ :=
    vkSkiaSurfaceNew_ok_shape env rm extents s h
  subst hs
  simp [vkTextureOfView, releaseFreesMemory]

/-- C8: under the documented contract that the 2D library rejects
non-positive image dimensions, extents whose `u32 → i32` reinterpretation is
zero or negative in either dimension (this covers `(0,0)` and any dimension
at or above `2^31`) make `VkSkiaSurface::new` fail deterministically by
panicking, with the resource-manager state unchanged — no zero- or
negative-sized resource is ever registered. -/
theorem c8_nonpositive_extents (env : SurfEnv) (rm : ResourceManager)
    (extents : RafxExtents2D)
    (halloc : ∀ info : ImageInfo, info.width ≤ 0 ∨ info.height ≤ 0 →
      env.newRenderTarget info = none)
    (hz : i32ofU32 extents.width ≤ 0 ∨ i32ofU32 extents.height ≤ 0) :
    (vkSkiaSurfaceNew env rm extents).1 = rm ∧
    (vkSkiaSurfaceNew env rm extents).2.isPanic = true := by
  have h := halloc (imageInfoFor env.nativeColorType extents)
    (by simpa [imageInfoFor] using hz)
  simp [vkSkiaSurfaceNew, h, Outcome.isPanic]

/-- C9: the queue-handle mutex trace of `VkSkiaContext::new` is balanced
(the lock is released before the function returns) and, whenever the lock is
touched at all, the trace is exactly acquire, read of the queue's numeric
handle, release — the lock is held only for the instant of the read. -/
theorem c9_lock_scope (env : ContextEnv) :
    locksHeldAfter (vkSkiaContextNew env).2 = 0 ∧
    ((vkSkiaContextNew env).2 = [] ∨
      ∃ q, env.vkQueue = some q ∧
        (vkSkiaContextNew env).2 =
          [LockEvent.acquire, LockEvent.readHandle q.queueHandle,
            LockEvent.release]) := by
  rcases hd : env.vkDeviceContext with _ | d
  · simp [vkSkiaContextNew, hd, locksHeldAfter]
  · rcases hq : env.vkQueue with _ | q
    · simp [vkSkiaContextNew, hd, hq, locksHeldAfter]
    · rcases hn : env.newVulkan (backendContextFor d q) with _ | c <;>
        simp [vkSkiaContextNew, hd, hq, hn, locksHeldAfter]

/-- C10: the builder's u32 interface and the two recorded sizes: the
dimensions passed to the 2D library's image info are the signed-32-bit
reinterpretation of the extents, while the framework texture definition
keeps the original unsigned values; the image-info dimensions agree with the
extents exactly when both are below `2^31`, and any dimension at or above
`2^31` is passed to the image info as a negative value. -/
theorem c10_dimension_mismatch (c : ColorType) (f : RafxFormat)
    (extents : RafxExtents2D)
    (hw : extents.width < 2 ^ 32) (hh : extents.height < 2 ^ 32) :
    (((imageInfoFor c extents).width = (extents.width : Int) ∧
      (imageInfoFor c extents).height = (extents.height : Int)) ↔
      (extents.width < 2 ^ 31 ∧ extents.height < 2 ^ 31)) ∧
    (textureDefFor extents f).extents.width = extents.width ∧
    (textureDefFor extents f).extents.height = extents.height ∧
    (2 ^ 31 ≤ extents.width → (imageInfoFor c extents).width < 0) ∧
    (2 ^ 31 ≤ extents.height → (imageInfoFor c extents).height < 0) := by
  refine ⟨?_, rfl, rfl, ?_, ?_⟩
  · simp only [imageInfoFor]
    rw [i32ofU32_eq_self_iff extents.width hw, i32ofU32_eq_self_iff extents.height hh]
  · intro h31
    exact i32ofU32_neg_of_ge extents.width h31 hw
  · intro h31
    exact i32ofU32_neg_of_ge extents.height h31 hh

/-! ## Concrete fixtures -/

/-- A concrete Skia backend texture wrapping Vulkan image handle 42. -/
def texW : BackendTexture := { vulkanImageInfo := some { image := 42 } }

/-- A concrete Skia surface backed by `texW`. -/
def surfW : SkiaSurface := { backendTexture := some texW }

/-- A fully succeeding environment for `VkSkiaSurface::new`. -/
def envW : SurfEnv :=
  { nativeColorType := ColorType.RGBA8888,
    newRenderTarget := fun _ => some surfW,
    fromExistingErr := none,
    getOrCreateErr := none }

/-- An empty resource manager. -/
def rmW : ResourceManager := { deviceContextId := 0, images := [] }

/-- Typical positive extents. -/
def extentsW : RafxExtents2D := { width := 1920, height := 1080 }

/-- The surface struct produced by `vkSkiaSurfaceNew envW rmW extentsW`. -/
def sW : VkSkiaSurfaceM :=
  { deviceContextId := 0,
    image_view := ⟨RafxTexture.Vk ⟨⟨none, 42⟩,
      textureDefFor extentsW RafxFormat.R8G8B8A8_UNORM⟩⟩,
    surface := surfW,
    texture := texW }

/-- An environment whose surface allocation always fails. -/
def envC5 : SurfEnv :=
  { nativeColorType := ColorType.RGBA8888,
    newRenderTarget := fun _ => none,
    fromExistingErr := none,
    getOrCreateErr := none }

/-- An environment whose surface allocation rejects non-positive
dimensions. -/
def envC8 : SurfEnv :=
  { nativeColorType := ColorType.RGBA8888,
    newRenderTarget := fun info =>
      if info.width ≤ 0 ∨ info.height ≤ 0 then none else some surfW,
    fromExistingErr := none,
    getOrCreateErr := none }

/-- A real instance-level loader for the pass-through witness. -/
def gipaW : Nat → String → Option Nat := fun _ _ => some 7

/-- A real device-level loader for the pass-through witness. -/
def gdpaW : Nat → String → Option Nat := fun _ _ => some 8

/-- Concrete raw device handles. -/
def dW : VkDeviceContextRaw :=
  { instanceHandle := 11, physicalDeviceHandle := 12, deviceHandle := 13,
    graphicsQueueFamilyIndex := 0 }

/-- A concrete queue with native handle 21. -/
def qW : VkQueueInner := { queueHandle := 21 }

/-- A concrete Skia GPU context. -/
def ctxW : SkiaGpuContext := { id := 99 }

/-- A fully succeeding environment for `VkSkiaContext::new`. -/
def envC6 : ContextEnv :=
  { vkDeviceContext := some dW, vkQueue := some qW,
    newVulkan := fun _ => some ctxW }

/-- Extents with a width at the signed-overflow boundary. -/
def extentsBig : RafxExtents2D := { width := 2 ^ 31, height := 100 }

/-! ## Witnesses and counterexample -/

/-- C1 witness: at a concrete fully-succeeding build with extents
1920×1080, the build returns `ok` and the two image handles coincide. -/
theorem c1_image_identity_witness :
    (vkSkiaSurfaceNew envW rmW extentsW).2 = Outcome.ok sW ∧
    get_image_from_skia_texture sW.texture = some (imageOfView sW.image_view) :=
  ⟨rfl, c1_image_identity envW rmW extentsW sW (by decide) (by decide) rfl⟩

/-- C3 witness: a non-intercepted instance-level query passes through to the
real loader. -/
theorem c3_resolver_passthrough_witness :
    get_proc gipaW gdpaW (GetProcOf.Instance 0 "vkGetDeviceQueue") =
      some (ProcPtr.native 7) := by
  rw [c3_resolver_passthrough gipaW gdpaW (GetProcOf.Instance 0 "vkGetDeviceQueue")
    (Or.inl (by decide))]
  rfl

/-- C4 witness: the fallback arm at the concrete color type `Gray8`. -/
theorem c4_format_mapping_witness :
    formatFromColorType ColorType.Gray8 =
      (RafxFormat.R8G8B8A8_UNORM, [unexpectedColorTypeWarning]) :=
  c4_format_mapping.2.2 ColorType.Gray8 (by decide) (by decide)

/-- C5 counterexample: at concrete extents 100×100 with a failing allocator,
`VkSkiaSurface::new` panics — the outcome is not the structured `err` result
the claim requires (and not `ok` either). -/
theorem c5_counterexample :
    (vkSkiaSurfaceNew envC5 rmW { width := 100, height := 100 }).2.isPanic = true ∧
    (vkSkiaSurfaceNew envC5 rmW { width := 100, height := 100 }).2.isErr = false ∧
    (vkSkiaSurfaceNew envC5 rmW { width := 100, height := 100 }).2.isOk = false :=
  ⟨rfl, rfl, rfl⟩

/-- C5 witness: the amended claim at the same concrete failing input. -/
theorem c5_alloc_failure_panics_witness :
    vkSkiaSurfaceNew envC5 rmW { width := 100, height := 100 } =
      (rmW, Outcome.panic "Surface::new_render_target(..).unwrap() on None") :=
  c5_alloc_failure_panics envC5 rmW { width := 100, height := 100 } rfl

/-- C6 witness: a concrete fully-succeeding context build returns `ok` and
never an `err`. -/
theorem c6_context_total_witness :
    (vkSkiaContextNew envC6).1.isOk = true ∧
    (vkSkiaContextNew envC6).1.isErr = false :=
  ⟨(c6_context_total envC6).2.1.mpr ⟨dW, qW, ctxW, rfl, rfl, rfl⟩,
    (c6_context_total envC6).1⟩

/-- C7 witness: the concrete successful build carries `allocation = none`
and its release does not free the image memory. -/
theorem c7_foreign_no_free_witness :
    (vkSkiaSurfaceNew envW rmW extentsW).2 = Outcome.ok sW ∧
    (vkTextureOfView sW.image_view).rawImage.allocation = none ∧
    releaseFreesMemory (vkTextureOfView sW.image_view) = false :=
  ⟨rfl, (c7_foreign_no_free envW rmW extentsW sW rfl).1,
    (c7_foreign_no_free envW rmW extentsW sW rfl).2⟩

/-- C8 witness: at extents `(0, 0)` with an allocator that rejects
non-positive dimensions, the build panics and registers nothing. -/
theorem c8_nonpositive_extents_witness :
    (vkSkiaSurfaceNew envC8 rmW { width := 0, height := 0 }).1 = rmW ∧
    (vkSkiaSurfaceNew envC8 rmW { width := 0, height := 0 }).2.isPanic = true :=
  c8_nonpositive_extents envC8 rmW { width := 0, height := 0 }
    (fun info h => by simp only [envC8]; exact if_pos h)
    (Or.inl (by decide))

/-- C10 witness: at width `2^31` the image-info width is negative while the
registered texture definition keeps the unsigned width. -/
theorem c10_dimension_mismatch_witness :
    (imageInfoFor ColorType.RGBA8888 extentsBig).width < 0 ∧
    (textureDefFor extentsBig RafxFormat.R8G8B8A8_UNORM).extents.width =
      extentsBig.width := by
  have h := c10_dimension_mismatch ColorType.RGBA8888 RafxFormat.R8G8B8A8_UNORM
    extentsBig (by norm_num [extentsBig]) (by norm_num [extentsBig])
  exact ⟨h.2.2.2.1 (by norm_num [extentsBig]), h.2.1⟩

end Skulpin

